import Mathlib

/-!
Verification of the os-hub-mcp stdio JSON-RPC bridge
(`src/os_hub_service/server.py`).

The embedding below translates the data model of the server and its dispatch
loop into pure Lean functions.  Network effects are modelled by an
`Upstream` oracle giving the HTTP status and JSON body the staging API
would return for each search query / facility id, and every function that
may contact the API also returns the list of upstream calls it performed,
so that claims about "no call to the Upstream Client" are statable.
Python exceptions are modelled by an `Except PyError` result, keeping the
distinction between `ValueError` and other exception classes, because
`call_tool` catches `ValueError` specially.
-/

namespace OSHubMCP

/-- A JSON-RPC request identifier: the caller may choose a string or an
integer, and the server treats it opaquely. -/
inductive RpcId where
  | str : String → RpcId
  | num : Int → RpcId
deriving DecidableEq, Repr

/-- JSON values, used for result payloads and for the bodies the upstream
API returns. -/
inductive Json where
  | null : Json
  | bool : Bool → Json
  | num : Int → Json
  | str : String → Json
  | arr : List Json → Json
  | obj : List (String × Json) → Json
deriving Repr

mutual

/-- Serialization of a JSON value, modelling the Python call
`json.dumps(data, indent=2)`.  No claim inspects the exact layout of a
serialized success payload, only that the text block carries the
serialized data, so the serializer is compact rather than indented. -/
def Json.dumps : Json → String
  | .null => "null"
  | .bool b => if b then "true" else "false"
  | .num n => toString n
  | .str s => "\x22" ++ s ++ "\x22"
  | .arr l => "[" ++ String.intercalate ", " (Json.dumpsElems l) ++ "]"
  | .obj l => "\x7b" ++ String.intercalate ", " (Json.dumpsPairs l) ++ "\x7d"

def Json.dumpsElems : List Json → List String
  | [] => []
  | j :: js => Json.dumps j :: Json.dumpsElems js

def Json.dumpsPairs : List (String × Json) → List String
  | [] => []
  | (k, v) :: ps => ("\x22" ++ k ++ "\x22: " ++ Json.dumps v) :: Json.dumpsPairs ps

end

/-- Model of `mcp.types.TextContent`: a typed content block; the server only ever
produces blocks with `type = "text"`. -/
structure TextContent where
  type : String
  text : String
deriving DecidableEq, Repr

/-- Serialization (`model_dump()`) of a `TextContent`, as embedded in a `tools/call`
response result. -/
def TextContent.model_dump (c : TextContent) : Json :=
  Json.obj [("type", Json.str c.type), ("text", Json.str c.text)]

/-- Model of `mcp.types.Tool`: a registered tool descriptor. -/
structure Tool where
  name : String
  description : String
  inputSchema : Json
deriving Repr

/-- Serialization (`model_dump()`) of a `Tool`, as embedded in the `tools/list` result. -/
def Tool.model_dump (t : Tool) : Json :=
  Json.obj [("name", Json.str t.name), ("description", Json.str t.description),
            ("inputSchema", t.inputSchema)]

/-- The Python exceptions `server.py` raises or catches, with the message
`str(e)` would show.  `call_tool` distinguishes `ValueError` from every
other class, so the class is part of the model. -/
inductive PyError where
  | valueError : String → PyError
  | runtimeError : String → PyError
  | keyError : String → PyError
  | typeError : String → PyError
deriving DecidableEq, Repr

/-- The Python `str(e)` view of an exception: `str(KeyError("name"))` is the
quoted key, the others show their message. -/
def pyStr : PyError → String
  | .valueError m => m
  | .runtimeError m => m
  | .keyError k => "\x27" ++ k ++ "\x27"
  | .typeError m => m

/-- One outbound HTTP GET to the Open Supply Hub API: either a search
(`GET {API_BASE_URL}?q=query`) or a lookup by id
(`GET {API_BASE_URL}/os_id`). -/
inductive UpstreamCall where
  | search : String → UpstreamCall
  | detail : String → UpstreamCall
deriving DecidableEq, Repr

/-- The external Open Supply Hub API, modelled as an oracle: for each
query / id it fixes the HTTP status of the response and the JSON body
delivered when the status is 200. -/
structure Upstream where
  searchStatus : String → Nat
  searchBody : String → Json
  detailStatus : String → Nat
  detailBody : String → Json

/-- The `OSHubServer` instance state: the server name passed to the
constructor and the `_initialized` flag, which `__init__` sets to
`False`. -/
structure OSHubServer where
  name : String
  _initialized : Bool
deriving DecidableEq, Repr

/-- The module-level instance `app = OSHubServer("os_hub_server")`, created
at process start. -/
def app : OSHubServer := ⟨"os_hub_server", false⟩

/-- The result dict built by the (unused) method `OSHubServer.initialize`
(lines 52-73), with `serverInfo.name` taken from the instance and version
"1.0.0". -/
def initializeMethodResult (self : OSHubServer) : Json :=
  Json.obj [
    ("protocolVersion", Json.str "2024-11-05"),
    ("capabilities", Json.obj [
      ("tools", Json.obj [
        ("search_facilities", Json.obj [
          ("description", Json.str "Search for facilities by query in Open Supply Hub."),
          ("command", Json.str "search_facilities")])]),
      ("resources", Json.obj []),
      ("prompts", Json.obj [
        ("example_prompt", Json.obj [
          ("description", Json.str "An example prompt"),
          ("options", Json.arr [Json.str "option1", Json.str "option2"])])])]),
    ("serverInfo", Json.obj [
      ("name", Json.str self.name), ("version", Json.str "1.0.0")])]

/-- The method named `initialize` on `OSHubServer` (lines 37-76), embedded
here as `initializeMethod`: probes the API with the sentinel query
`?q=test`; on a non-200 status it raises
`RuntimeError(f"Failed to fetch data: {status}")` (re-raised by the
`except` clause) leaving `_initialized` untouched; on 200 it sets
`_initialized = True` and returns the capability payload.  The dispatch
loop in `main` never calls this method. -/
def OSHubServer.initializeMethod (self : OSHubServer) (up : Upstream) :
    Except PyError (OSHubServer × Json) × List UpstreamCall :=
  let status := up.searchStatus "test"
  if status ≠ 200 then
    (Except.error (PyError.runtimeError ("Failed to fetch data: " ++ toString status)),
     [UpstreamCall.search "test"])
  else
    (Except.ok ({ name := self.name, _initialized := true }, initializeMethodResult self),
     [UpstreamCall.search "test"])

/-- Method `OSHubServer.fetch_facilities` (lines 78-94): raises
`RuntimeError("Server is not initialized")` before any network call when
`_initialized` is false; otherwise performs the search GET, raising
`RuntimeError(f"Failed to fetch data: {status}")` on a non-200 status and
returning the JSON body on 200. -/
def OSHubServer.fetch_facilities (self : OSHubServer) (up : Upstream) (query : String) :
    Except PyError Json × List UpstreamCall :=
  if !self._initialized then
    (Except.error (PyError.runtimeError "Server is not initialized"), [])
  else
    let status := up.searchStatus query
    if status ≠ 200 then
      (Except.error (PyError.runtimeError ("Failed to fetch data: " ++ toString status)),
       [UpstreamCall.search query])
    else
      (Except.ok (up.searchBody query), [UpstreamCall.search query])

/-- Method `OSHubServer.fetch_facility_by_id` (lines 96-114): raises
`RuntimeError("Server is not initialized")` before any network call when
`_initialized` is false; otherwise performs the lookup GET, raising
`ValueError(f"Facility with OS ID {os_id} not found")` on 404,
`RuntimeError(f"Failed to fetch facility details: {status}")` on any
other non-200 status, and returning the JSON body on 200. -/
def OSHubServer.fetch_facility_by_id (self : OSHubServer) (up : Upstream) (os_id : String) :
    Except PyError Json × List UpstreamCall :=
  if !self._initialized then
    (Except.error (PyError.runtimeError "Server is not initialized"), [])
  else
    let status := up.detailStatus os_id
    if status = 404 then
      (Except.error (PyError.valueError ("Facility with OS ID " ++ os_id ++ " not found")),
       [UpstreamCall.detail os_id])
    else if status ≠ 200 then
      (Except.error (PyError.runtimeError ("Failed to fetch facility details: " ++ toString status)),
       [UpstreamCall.detail os_id])
    else
      (Except.ok (up.detailBody os_id), [UpstreamCall.detail os_id])

/-- The tool-call arguments dict.  The registered schemas declare every
argument as a string, and `call_tool` reads arguments only through
`dict.get(key, "")`, so the map is modelled as string-to-string. -/
abbrev Arguments := List (String × String)

/-- The Python lookup `arguments.get(key, default)`. -/
def dictGet (arguments : Arguments) (key dflt : String) : String :=
  match arguments.lookup key with
  | some v => v
  | none => dflt

/-- Handler `list_tools` (lines 119-151): the static registry listing, in
registration order. -/
def list_tools : List Tool :=
  [⟨"search_facilities",
    "Search for facilities by query in Open Supply Hub.",
    Json.obj [
      ("type", Json.str "object"),
      ("properties", Json.obj [
        ("query", Json.obj [
          ("type", Json.str "string"),
          ("description", Json.str "Query string to search for facilities.")])]),
      ("required", Json.arr [Json.str "query"])]⟩,
   ⟨"get_facility_details",
    "Get detailed information for a specific facility by OS ID.",
    Json.obj [
      ("type", Json.str "object"),
      ("properties", Json.obj [
        ("os_id", Json.obj [
          ("type", Json.str "string"),
          ("description", Json.str "The Open Supply Hub ID of the facility (e.g., GB123).")])]),
      ("required", Json.arr [Json.str "os_id"])]⟩]

/-- Handler `call_tool` (lines 153-178).  For `search_facilities`: a missing or empty
`query` raises a `ValueError` citing the missing `query` before any
fetch; otherwise the fetched data is serialized into one text block.
`get_facility_details`: a missing or empty `os_id` raises the analogous
`ValueError`; a `ValueError` from the fetch (the 404 case) is caught and
returned as a successful text block carrying `str(e)`; any other
exception is re-raised as
`RuntimeError(f"Error fetching facility details: {str(e)}")`.
Any other tool name raises `ValueError(f"Unknown tool: {name}")`. -/
def call_tool (self : OSHubServer) (up : Upstream) (name : String) (arguments : Arguments) :
    Except PyError (List TextContent) × List UpstreamCall :=
  if name = "search_facilities" then
    let query := dictGet arguments "query" ""
    if query = "" then
      (Except.error (PyError.valueError "Missing \x27query\x27 in arguments."), [])
    else
      match self.fetch_facilities up query with
      | (Except.error e, calls) => (Except.error e, calls)
      | (Except.ok data, calls) => (Except.ok [⟨"text", Json.dumps data⟩], calls)
  else if name = "get_facility_details" then
    let os_id := dictGet arguments "os_id" ""
    if os_id = "" then
      (Except.error (PyError.valueError "Missing \x27os_id\x27 in arguments."), [])
    else
      match self.fetch_facility_by_id up os_id with
      | (Except.ok data, calls) => (Except.ok [⟨"text", Json.dumps data⟩], calls)
      | (Except.error (PyError.valueError m), calls) => (Except.ok [⟨"text", m⟩], calls)
      | (Except.error e, calls) =>
          (Except.error (PyError.runtimeError
            ("Error fetching facility details: " ++ pyStr e)), calls)
  else
    (Except.error (PyError.valueError ("Unknown tool: " ++ name)), [])

/-- The `params` member of a request, restricted to the two keys `main`
reads: `root.params["name"]` and `root.params.get("arguments", {})`. -/
structure Params where
  name : Option String
  arguments : Option Arguments
deriving Repr

/-- Model of `mcp.types.JSONRPCRequest`: a request always carries an id (messages
without one parse as notifications and never reach the request branch of
the loop), a method string, and optional params. -/
structure JSONRPCRequest where
  id : RpcId
  method : String
  params : Option Params
deriving Repr

/-- Extraction `root.params["name"]` in Python: subscripting `None` raises
`TypeError`, a missing key raises `KeyError("name")` whose `str` is the
quoted key, otherwise the value is returned. -/
def getParamName : Option Params → Except PyError String
  | none => Except.error (PyError.typeError "\x27NoneType\x27 object is not subscriptable")
  | some p =>
    match p.name with
    | none => Except.error (PyError.keyError "name")
    | some n => Except.ok n

/-- Extraction `root.params.get("arguments", {})`, evaluated only after
`root.params["name"]` succeeded (so `params` is known non-`None`). -/
def getParamArguments : Option Params → Arguments
  | none => []
  | some p =>
    match p.arguments with
    | none => []
    | some arguments => arguments

/-- An outbound JSON-RPC message written by the loop: either a
`JSONRPCResponse` with a result payload or a `JSONRPCError` whose error
object is `{code, message}`. -/
inductive OutMessage where
  | response : RpcId → Json → OutMessage
  | error : RpcId → Int → String → OutMessage
deriving Repr

/-- The identifier an outbound message bears. -/
def OutMessage.msgId : OutMessage → RpcId
  | .response i _ => i
  | .error i _ _ => i

/-- Whether an outbound message is a `JSONRPCError`. -/
def OutMessage.isError : OutMessage → Bool
  | .response _ _ => false
  | .error _ _ _ => true

/-- The hard-coded result of the `initialize` branch of the loop
(lines 199-221), with per-tool capability objects and
`serverInfo = {"name": "opensupplyhub-server", "version": "0.1.0"}`. -/
def initializeLoopResult : Json :=
  Json.obj [
    ("protocolVersion", Json.str "2024-11-05"),
    ("capabilities", Json.obj [
      ("tools", Json.obj [
        ("search_facilities", Json.obj [
          ("description", Json.str "Search for facilities by query in Open Supply Hub."),
          ("command", Json.str "search_facilities")])]),
      ("resources", Json.obj []),
      ("prompts", Json.obj [
        ("example_prompt", Json.obj [
          ("description", Json.str "An example prompt"),
          ("options", Json.arr [Json.str "option1", Json.str "option2"])])])]),
    ("serverInfo", Json.obj [
      ("name", Json.str "opensupplyhub-server"), ("version", Json.str "0.1.0")])]

/-- The result of the `tools/list` branch (lines 228-233). -/
def toolsListResult : Json :=
  Json.obj [("tools", Json.arr (list_tools.map Tool.model_dump))]

/-- One iteration of the dispatch loop in `main` (lines 194-255) on a
`JSONRPCRequest`, returning the server state after the iteration, the
messages written to `write_stream` during it, and the upstream calls
made.  The `initialize` branch sends a hard-coded success response and
then sets `app._initialized = True`, without calling
`OSHubServer.initialize` and without touching the upstream.  The
`tools/call` branch wraps any exception from extraction or from
`call_tool` into a `JSONRPCError` with code `-32603` and message
`str(e)`.  The `if/elif` chain has no `else`: a request with any other
method produces no output at all. -/
def dispatchStep (self : OSHubServer) (up : Upstream) (root : JSONRPCRequest) :
    OSHubServer × List OutMessage × List UpstreamCall :=
  if root.method = "initialize" then
    ({ name := self.name, _initialized := true },
     [OutMessage.response root.id initializeLoopResult], [])
  else if root.method = "tools/list" then
    (self, [OutMessage.response root.id toolsListResult], [])
  else if root.method = "tools/call" then
    match getParamName root.params with
    | Except.error e => (self, [OutMessage.error root.id (-32603) (pyStr e)], [])
    | Except.ok nm =>
      match call_tool self up nm (getParamArguments root.params) with
      | (Except.ok content, calls) =>
        (self,
         [OutMessage.response root.id
           (Json.obj [("content", Json.arr (content.map TextContent.model_dump))])],
         calls)
      | (Except.error e, calls) =>
        (self, [OutMessage.error root.id (-32603) (pyStr e)], calls)
  else
    (self, [], [])

/-- The dispatch loop run over a finite inbound request sequence: the
loop only starts the next request after the output of the current one has
been written, so a run is the left-to-right composition of
`dispatchStep`. -/
def run (self : OSHubServer) (up : Upstream) :
    List JSONRPCRequest → OSHubServer × List OutMessage × List UpstreamCall
  | [] => (self, [], [])
  | r :: rs =>
    let s1 := dispatchStep self up r
    let s2 := run s1.1 up rs
    (s2.1, s1.2.1 ++ s2.2.1, s1.2.2 ++ s2.2.2)

/-! ## Branch characterizations of the dispatch loop -/

/-- The `initialize` branch: hard-coded response, state marked
initialized, no upstream contact. -/
theorem dispatchStep_handshake (self : OSHubServer) (up : Upstream) (i : RpcId)
    (ps : Option Params) :
    dispatchStep self up ⟨i, "initialize", ps⟩ =
      (⟨self.name, true⟩, [OutMessage.response i initializeLoopResult], []) := rfl

/-- The `tools/list` branch: the registry listing, state unchanged. -/
theorem dispatchStep_tools_list (self : OSHubServer) (up : Upstream) (i : RpcId)
    (ps : Option Params) :
    dispatchStep self up ⟨i, "tools/list", ps⟩ =
      (self, [OutMessage.response i toolsListResult], []) := rfl

/-- The `tools/call` branch written out. -/
theorem dispatchStep_tools_call (self : OSHubServer) (up : Upstream) (i : RpcId)
    (ps : Option Params) :
    dispatchStep self up ⟨i, "tools/call", ps⟩ =
      (match getParamName ps with
       | Except.error e => (self, [OutMessage.error i (-32603) (pyStr e)], [])
       | Except.ok nm =>
         match call_tool self up nm (getParamArguments ps) with
         | (Except.ok content, calls) =>
           (self,
            [OutMessage.response i
              (Json.obj [("content", Json.arr (content.map TextContent.model_dump))])],
            calls)
         | (Except.error e, calls) =>
           (self, [OutMessage.error i (-32603) (pyStr e)], calls)) := rfl

/-- A request with a method outside the `if/elif` chain falls through:
nothing is written, no upstream call happens, the state is unchanged. -/
theorem dispatchStep_other (self : OSHubServer) (up : Upstream) (root : JSONRPCRequest)
    (h1 : root.method ≠ "initialize") (h2 : root.method ≠ "tools/list")
    (h3 : root.method ≠ "tools/call") :
    dispatchStep self up root = (self, [], []) := by
  simp only [dispatchStep, if_neg h1, if_neg h2, if_neg h3]

/-- Every `tools/call` iteration writes exactly one message, bearing the
id of the request, whatever the params, state and upstream are. -/
theorem tools_call_one_output (self : OSHubServer) (up : Upstream) (i : RpcId)
    (ps : Option Params) :
    ∃ o : OutMessage, (dispatchStep self up ⟨i, "tools/call", ps⟩).2.1 = [o] ∧
      o.msgId = i := by
  rw [dispatchStep_tools_call]
  rcases getParamName ps with e | nm
  · exact ⟨_, rfl, rfl⟩
  · dsimp only
    rcases call_tool self up nm (getParamArguments ps) with ⟨e | c, calls⟩
    · exact ⟨_, rfl, rfl⟩
    · exact ⟨_, rfl, rfl⟩

/-- The state after one iteration: `initialize` marks the session
initialized, every other method leaves the state untouched. -/
theorem dispatchStep_state (self : OSHubServer) (up : Upstream) (root : JSONRPCRequest) :
    (dispatchStep self up root).1 =
      if root.method = "initialize" then ⟨self.name, true⟩ else self := by
  obtain ⟨i, m, ps⟩ := root
  by_cases h1 : m = "initialize"
  · subst h1; rfl
  · rw [if_neg h1]
    by_cases h2 : m = "tools/list"
    · subst h2; rfl
    · by_cases h3 : m = "tools/call"
      · subst h3
        rw [dispatchStep_tools_call]
        rcases getParamName ps with e | nm
        · rfl
        · dsimp only
          rcases call_tool self up nm (getParamArguments ps) with ⟨e | c, calls⟩ <;> rfl
      · rw [dispatchStep_other self up ⟨i, m, ps⟩ h1 h2 h3]

/-! ## Concrete fixtures for witnesses and counterexamples -/

/-- An upstream for which every request succeeds with status 200. -/
def upOk : Upstream :=
  ⟨fun _ => 200, fun _ => Json.arr [], fun _ => 200, fun _ => Json.obj []⟩

/-- An unreachable upstream: every request fails with status 500. -/
def upDown : Upstream :=
  ⟨fun _ => 500, fun _ => Json.null, fun _ => 500, fun _ => Json.null⟩

/-- An upstream where searches succeed but every facility lookup answers
404 (id not found). -/
def up404 : Upstream :=
  ⟨fun _ => 200, fun _ => Json.arr [], fun _ => 404, fun _ => Json.null⟩

/-- The server state after a successful handshake. -/
def appInit : OSHubServer := ⟨"os_hub_server", true⟩

/-! ## Claims -/

/-- C1, counterexample: the claim says a request with an unknown method
gets an ErrorResponse with a "method not found" code; but on the request
`{id: 1, method: "ping"}` the loop writes nothing at all — there is no
`else` branch — so in particular no ErrorResponse bearing id 1 exists. -/
theorem claim_C1_counterexample :
    (dispatchStep app upOk ⟨RpcId.num 1, "ping", none⟩).2.1 = [] ∧
    ∀ c : Int, ∀ msg : String,
      OutMessage.error (RpcId.num 1) c msg ∉
        (dispatchStep app upOk ⟨RpcId.num 1, "ping", none⟩).2.1 := by
  refine ⟨rfl, fun c msg h => ?_⟩
  rw [show (dispatchStep app upOk ⟨RpcId.num 1, "ping", none⟩).2.1 = [] from rfl] at h
  exact List.not_mem_nil _ h

/-- C1, amended: a Request whose method is none of `initialize`,
`tools/list`, `tools/call` is silently dropped — the loop emits no
message for it, makes no upstream call, and leaves the state unchanged. -/
theorem claim_C1 (self : OSHubServer) (up : Upstream) (root : JSONRPCRequest)
    (h1 : root.method ≠ "initialize") (h2 : root.method ≠ "tools/list")
    (h3 : root.method ≠ "tools/call") :
    dispatchStep self up root = (self, [], []) :=
  dispatchStep_other self up root h1 h2 h3

/-- C1, witness: the amended claim at the concrete request
`{id: 1, method: "ping"}`. -/
theorem claim_C1_witness :
    dispatchStep app upOk ⟨RpcId.num 1, "ping", none⟩ = (app, [], []) :=
  claim_C1 app upOk ⟨RpcId.num 1, "ping", none⟩ (by decide) (by decide) (by decide)

/-- C2: every request the loop accepts for processing (its method is one
of the three routed ones) produces exactly one outbound message, and that
message bears the identifier of the request. -/
theorem claim_C2 (self : OSHubServer) (up : Upstream) (root : JSONRPCRequest)
    (h : root.method = "initialize" ∨ root.method = "tools/list" ∨
         root.method = "tools/call") :
    ∃ o : OutMessage, (dispatchStep self up root).2.1 = [o] ∧ o.msgId = root.id := by
  obtain ⟨i, m, ps⟩ := root
  rcases h with h | h | h
  all_goals simp only at h; subst h
  · exact ⟨_, rfl, rfl⟩
  · exact ⟨_, rfl, rfl⟩
  · exact tools_call_one_output self up i ps

/-- C2, witness: at the concrete request
`{id: 3, method: "tools/call", params: {name: "search_facilities",
arguments: {query: "acme"}}}` against an initialized server. -/
theorem claim_C2_witness :
    ∃ o : OutMessage,
      (dispatchStep appInit upOk ⟨RpcId.num 3, "tools/call",
        some ⟨some "search_facilities", some [("query", "acme")]⟩⟩).2.1 = [o] ∧
      o.msgId = RpcId.num 3 :=
  claim_C2 appInit upOk
    ⟨RpcId.num 3, "tools/call", some ⟨some "search_facilities", some [("query", "acme")]⟩⟩
    (Or.inr (Or.inr rfl))

/-- C3, counterexample: with every upstream request failing (status
500), handling `{id: 1, method: "initialize"}` makes no upstream call at
all (so no liveness probe runs), still flips the session to Initialized,
and emits a success Response rather than an ErrorResponse — against the
claim that a failing probe leaves the session Uninitialized with an
ErrorResponse. -/
theorem claim_C3_counterexample :
    (dispatchStep app upDown ⟨RpcId.num 1, "initialize", none⟩).2.2 = [] ∧
    (dispatchStep app upDown ⟨RpcId.num 1, "initialize", none⟩).1._initialized = true ∧
    (dispatchStep app upDown ⟨RpcId.num 1, "initialize", none⟩).2.1 =
      [OutMessage.response (RpcId.num 1) initializeLoopResult] :=
  ⟨rfl, rfl, rfl⟩

/-- C3, amended: the `initialize` branch of the dispatch loop performs no
liveness probe and cannot fail — it unconditionally emits a success
Response and marks the session Initialized, contacting the upstream not
at all.  The sentinel-query probe exists only in the method
`OSHubServer.initialize`, which the loop never invokes; when the probe
fails that method raises a RuntimeError (leaving `_initialized` as it
was) instead of emitting an ErrorResponse. -/
theorem claim_C3 :
    (∀ (self : OSHubServer) (up : Upstream) (root : JSONRPCRequest),
      root.method = "initialize" →
        dispatchStep self up root =
          (⟨self.name, true⟩, [OutMessage.response root.id initializeLoopResult], [])) ∧
    (∀ (self : OSHubServer) (up : Upstream), up.searchStatus "test" ≠ 200 →
      ∃ msg, self.initializeMethod up =
        (Except.error (PyError.runtimeError msg), [UpstreamCall.search "test"])) := by
  constructor
  · rintro self up ⟨i, m, ps⟩ h
    simp only at h; subst h
    exact dispatchStep_handshake self up i ps
  · intro self up h
    exact ⟨_, by rw [OSHubServer.initializeMethod, if_pos h]⟩

/-- C3, witness: the amended claim at concrete inputs — the loop branch
on `{id: 1, method: "initialize"}`, and the unused method against the
all-500 upstream. -/
theorem claim_C3_witness :
    dispatchStep app upDown ⟨RpcId.num 1, "initialize", none⟩ =
      (⟨"os_hub_server", true⟩, [OutMessage.response (RpcId.num 1) initializeLoopResult], []) ∧
    ∃ msg, app.initializeMethod upDown =
      (Except.error (PyError.runtimeError msg), [UpstreamCall.search "test"]) :=
  ⟨claim_C3.1 app upDown ⟨RpcId.num 1, "initialize", none⟩ rfl,
   claim_C3.2 app upDown (by decide)⟩

/-! ## Characterizations of the fetchers and of `call_tool` -/

/-- An uninitialized server refuses a search before any network call. -/
theorem fetch_facilities_uninitialized (n : String) (up : Upstream) (query : String) :
    OSHubServer.fetch_facilities ⟨n, false⟩ up query =
      (Except.error (PyError.runtimeError "Server is not initialized"), []) := rfl

/-- An uninitialized server refuses a facility lookup before any network
call. -/
theorem fetch_facility_by_id_uninitialized (n : String) (up : Upstream) (os_id : String) :
    OSHubServer.fetch_facility_by_id ⟨n, false⟩ up os_id =
      (Except.error (PyError.runtimeError "Server is not initialized"), []) := rfl

/-- The behavior of `fetch_facility_by_id` on an initialized server, by
upstream status. -/
theorem fetch_facility_by_id_initialized (n : String) (up : Upstream) (os_id : String) :
    OSHubServer.fetch_facility_by_id ⟨n, true⟩ up os_id =
      (if up.detailStatus os_id = 404 then
        (Except.error (PyError.valueError ("Facility with OS ID " ++ os_id ++ " not found")),
         [UpstreamCall.detail os_id])
       else if up.detailStatus os_id ≠ 200 then
        (Except.error (PyError.runtimeError
          ("Failed to fetch facility details: " ++ toString (up.detailStatus os_id))),
         [UpstreamCall.detail os_id])
       else (Except.ok (up.detailBody os_id), [UpstreamCall.detail os_id])) := rfl

/-- Behavior of `call_tool` on `search_facilities`, unfolded. -/
theorem call_tool_search (self : OSHubServer) (up : Upstream) (args : Arguments) :
    call_tool self up "search_facilities" args =
      (if dictGet args "query" "" = "" then
        (Except.error (PyError.valueError "Missing \x27query\x27 in arguments."), [])
       else
        match self.fetch_facilities up (dictGet args "query" "") with
        | (Except.error e, calls) => (Except.error e, calls)
        | (Except.ok data, calls) => (Except.ok [⟨"text", Json.dumps data⟩], calls)) := rfl

/-- Behavior of `call_tool` on `get_facility_details`, unfolded. -/
theorem call_tool_details (self : OSHubServer) (up : Upstream) (args : Arguments) :
    call_tool self up "get_facility_details" args =
      (if dictGet args "os_id" "" = "" then
        (Except.error (PyError.valueError "Missing \x27os_id\x27 in arguments."), [])
       else
        match self.fetch_facility_by_id up (dictGet args "os_id" "") with
        | (Except.ok data, calls) => (Except.ok [⟨"text", Json.dumps data⟩], calls)
        | (Except.error (PyError.valueError m), calls) => (Except.ok [⟨"text", m⟩], calls)
        | (Except.error e, calls) =>
          (Except.error (PyError.runtimeError
            ("Error fetching facility details: " ++ pyStr e)), calls)) := rfl

/-- Behavior of `call_tool` on a name outside the registry. -/
theorem call_tool_unknown (self : OSHubServer) (up : Upstream) (nm : String)
    (args : Arguments) (h1 : nm ≠ "search_facilities")
    (h2 : nm ≠ "get_facility_details") :
    call_tool self up nm args =
      (Except.error (PyError.valueError ("Unknown tool: " ++ nm)), []) := by
  simp only [call_tool, if_neg h1, if_neg h2]

/-- On an uninitialized server, `call_tool` always raises, whatever the
tool name and arguments. -/
theorem call_tool_uninitialized (n : String) (up : Upstream) (nm : String)
    (args : Arguments) :
    ∃ e calls, call_tool ⟨n, false⟩ up nm args = (Except.error e, calls) := by
  by_cases h1 : nm = "search_facilities"
  · subst h1
    rw [call_tool_search]
    by_cases hq : dictGet args "query" "" = ""
    · rw [if_pos hq]; exact ⟨_, _, rfl⟩
    · rw [if_neg hq, fetch_facilities_uninitialized]
      exact ⟨_, _, rfl⟩
  · by_cases h2 : nm = "get_facility_details"
    · subst h2
      rw [call_tool_details]
      by_cases hq : dictGet args "os_id" "" = ""
      · rw [if_pos hq]; exact ⟨_, _, rfl⟩
      · rw [if_neg hq, fetch_facility_by_id_uninitialized]
        exact ⟨_, _, rfl⟩
    · rw [call_tool_unknown ⟨n, false⟩ up nm args h1 h2]
      exact ⟨_, _, rfl⟩

/-- C4: a `tools/call` request processed while the session is still
uninitialized always gets an ErrorResponse bearing its id, never a
success Response, whatever the params and the upstream. -/
theorem claim_C4 (self : OSHubServer) (up : Upstream) (root : JSONRPCRequest)
    (h0 : self._initialized = false) (h : root.method = "tools/call") :
    ∃ c msg, (dispatchStep self up root).2.1 = [OutMessage.error root.id c msg] := by
  obtain ⟨n, ini⟩ := self
  cases ini with
  | true => exact Bool.noConfusion h0
  | false =>
    obtain ⟨i, m, ps⟩ := root
    simp only at h; subst h
    rw [dispatchStep_tools_call]
    rcases getParamName ps with e | nm
    · exact ⟨_, _, rfl⟩
    · dsimp only
      obtain ⟨e, calls, hc⟩ := call_tool_uninitialized n up nm (getParamArguments ps)
      rw [hc]
      exact ⟨_, _, rfl⟩

/-- C4, witness: `search_facilities` called with a valid query before any
initialize, against a healthy upstream. -/
theorem claim_C4_witness :
    ∃ c msg, (dispatchStep app upOk ⟨RpcId.num 4, "tools/call",
      some ⟨some "search_facilities", some [("query", "acme")]⟩⟩).2.1 =
      [OutMessage.error (RpcId.num 4) c msg] :=
  claim_C4 app upOk
    ⟨RpcId.num 4, "tools/call", some ⟨some "search_facilities", some [("query", "acme")]⟩⟩
    rfl rfl

/-- C5: `get_facility_details` on an initialized session, with a
non-empty `os_id`: a 404 from the upstream produces a successful Response
whose single text block is the human-readable not-found message, while
any other non-200 status produces an ErrorResponse. -/
theorem claim_C5 (self : OSHubServer) (up : Upstream) (i : RpcId) (ps : Option Params)
    (oid : String)
    (h0 : self._initialized = true)
    (hname : getParamName ps = Except.ok "get_facility_details")
    (hoid : dictGet (getParamArguments ps) "os_id" "" = oid)
    (hne : oid ≠ "") :
    (up.detailStatus oid = 404 →
      (dispatchStep self up ⟨i, "tools/call", ps⟩).2.1 =
        [OutMessage.response i (Json.obj [("content", Json.arr
          [Json.obj [("type", Json.str "text"),
            ("text", Json.str ("Facility with OS ID " ++ oid ++ " not found"))]])])]) ∧
    (up.detailStatus oid ≠ 404 → up.detailStatus oid ≠ 200 →
      ∃ msg, (dispatchStep self up ⟨i, "tools/call", ps⟩).2.1 =
        [OutMessage.error i (-32603) msg]) := by
  obtain ⟨n, ini⟩ := self
  cases ini with
  | false => exact Bool.noConfusion h0
  | true =>
    rw [dispatchStep_tools_call, hname]
    dsimp only
    rw [call_tool_details, hoid, if_neg hne, fetch_facility_by_id_initialized]
    constructor
    · intro h404
      rw [if_pos h404]
      rfl
    · intro h404 h200
      rw [if_neg h404, if_pos h200]
      exact ⟨_, rfl⟩

/-- C5, witness: looking up `GB123` on an initialized session against an
upstream answering 404 gives the not-found Response; against one
answering 500 it gives an ErrorResponse. -/
theorem claim_C5_witness :
    (dispatchStep appInit up404 ⟨RpcId.num 9, "tools/call",
      some ⟨some "get_facility_details", some [("os_id", "GB123")]⟩⟩).2.1 =
      [OutMessage.response (RpcId.num 9) (Json.obj [("content", Json.arr
        [Json.obj [("type", Json.str "text"),
          ("text", Json.str ("Facility with OS ID " ++ "GB123" ++ " not found"))]])])] ∧
    ∃ msg, (dispatchStep appInit upDown ⟨RpcId.num 9, "tools/call",
      some ⟨some "get_facility_details", some [("os_id", "GB123")]⟩⟩).2.1 =
      [OutMessage.error (RpcId.num 9) (-32603) msg] :=
  ⟨(claim_C5 appInit up404 (RpcId.num 9)
      (some ⟨some "get_facility_details", some [("os_id", "GB123")]⟩) "GB123"
      rfl rfl rfl (by decide)).1 rfl,
   (claim_C5 appInit upDown (RpcId.num 9)
      (some ⟨some "get_facility_details", some [("os_id", "GB123")]⟩) "GB123"
      rfl rfl rfl (by decide)).2 (by decide) (by decide)⟩

/-- C6: `search_facilities` with an arguments map lacking the key
`query` gets an ErrorResponse citing the missing argument, and the
upstream is never contacted during that request. -/
theorem claim_C6 (self : OSHubServer) (up : Upstream) (i : RpcId) (ps : Option Params)
    (hname : getParamName ps = Except.ok "search_facilities")
    (hq : (getParamArguments ps).lookup "query" = none) :
    (dispatchStep self up ⟨i, "tools/call", ps⟩).2.1 =
      [OutMessage.error i (-32603) "Missing \x27query\x27 in arguments."] ∧
    (dispatchStep self up ⟨i, "tools/call", ps⟩).2.2 = [] := by
  have hq' : dictGet (getParamArguments ps) "query" "" = "" := by
    unfold dictGet; rw [hq]
  rw [dispatchStep_tools_call, hname]
  dsimp only
  rw [call_tool_search, if_pos hq']
  exact ⟨rfl, rfl⟩

/-- C6, witness: `search_facilities` with `arguments = {}` on an
initialized session. -/
theorem claim_C6_witness :
    (dispatchStep appInit upOk ⟨RpcId.num 6, "tools/call",
      some ⟨some "search_facilities", some []⟩⟩).2.1 =
      [OutMessage.error (RpcId.num 6) (-32603) "Missing \x27query\x27 in arguments."] ∧
    (dispatchStep appInit upOk ⟨RpcId.num 6, "tools/call",
      some ⟨some "search_facilities", some []⟩⟩).2.2 = [] :=
  claim_C6 appInit upOk (RpcId.num 6) (some ⟨some "search_facilities", some []⟩) rfl rfl

/-- C7: a `tools/call` with an unregistered tool name gets the
`Unknown tool` ErrorResponse; and every `tools/call` request, whatever
its params, produces exactly one outbound message — the exception is
absorbed at the loop boundary instead of propagating, so the loop
reaches the next request. -/
theorem claim_C7 :
    (∀ (self : OSHubServer) (up : Upstream) (i : RpcId) (ps : Option Params) (nm : String),
      getParamName ps = Except.ok nm → nm ≠ "search_facilities" →
      nm ≠ "get_facility_details" →
      (dispatchStep self up ⟨i, "tools/call", ps⟩).2.1 =
        [OutMessage.error i (-32603) ("Unknown tool: " ++ nm)]) ∧
    (∀ (self : OSHubServer) (up : Upstream) (root : JSONRPCRequest),
      root.method = "tools/call" →
      ∃ o : OutMessage, (dispatchStep self up root).2.1 = [o] ∧ o.msgId = root.id) := by
  constructor
  · intro self up i ps nm hname h1 h2
    rw [dispatchStep_tools_call, hname]
    dsimp only
    rw [call_tool_unknown self up nm (getParamArguments ps) h1 h2]
    rfl
  · rintro self up ⟨i, m, ps⟩ h
    simp only at h; subst h
    exact tools_call_one_output self up i ps

/-- C7, witness: the unregistered tool `bogus`, and a `tools/call` with
no params at all. -/
theorem claim_C7_witness :
    (dispatchStep appInit upOk ⟨RpcId.num 7, "tools/call",
      some ⟨some "bogus", none⟩⟩).2.1 =
      [OutMessage.error (RpcId.num 7) (-32603) ("Unknown tool: " ++ "bogus")] ∧
    ∃ o : OutMessage,
      (dispatchStep appInit upOk ⟨RpcId.num 8, "tools/call", none⟩).2.1 = [o] ∧
      o.msgId = RpcId.num 8 :=
  ⟨claim_C7.1 appInit upOk (RpcId.num 7) (some ⟨some "bogus", none⟩) "bogus"
     rfl (by decide) (by decide),
   claim_C7.2 appInit upOk ⟨RpcId.num 8, "tools/call", none⟩ rfl⟩

/-- C8: the session flag starts false at process start; no method other
than `initialize` changes the state at all; once the flag is true a
dispatch iteration keeps it true; and over any whole run it stays true
once set. -/
theorem claim_C8 :
    app._initialized = false ∧
    (∀ (self : OSHubServer) (up : Upstream) (root : JSONRPCRequest),
      root.method ≠ "initialize" → (dispatchStep self up root).1 = self) ∧
    (∀ (self : OSHubServer) (up : Upstream) (root : JSONRPCRequest),
      self._initialized = true → (dispatchStep self up root).1._initialized = true) ∧
    (∀ (self : OSHubServer) (up : Upstream) (reqs : List JSONRPCRequest),
      self._initialized = true → (run self up reqs).1._initialized = true) := by
  refine ⟨rfl, ?_, ?_, ?_⟩
  · intro self up root h
    rw [dispatchStep_state, if_neg h]
  · intro self up root h0
    rw [dispatchStep_state]
    by_cases h : root.method = "initialize"
    · rw [if_pos h]
    · rw [if_neg h]; exact h0
  · intro self up reqs
    induction reqs generalizing self with
    | nil => intro h0; exact h0
    | cons r rs ih =>
      intro h0
      have hs : (run self up (r :: rs)).1 = (run (dispatchStep self up r).1 up rs).1 := rfl
      rw [hs]
      apply ih
      rw [dispatchStep_state]
      by_cases h : r.method = "initialize"
      · rw [if_pos h]
      · rw [if_neg h]; exact h0

/-- C8, witness: the parts at concrete inputs — a `tools/list` iteration
leaves an initialized state initialized and untouched, and a whole run of
further requests keeps the flag true. -/
theorem claim_C8_witness :
    app._initialized = false ∧
    (dispatchStep appInit upOk ⟨RpcId.num 2, "tools/list", none⟩).1 = appInit ∧
    (dispatchStep appInit upOk ⟨RpcId.num 2, "tools/list", none⟩).1._initialized = true ∧
    (run appInit upOk [⟨RpcId.num 2, "tools/list", none⟩,
      ⟨RpcId.num 3, "tools/call", some ⟨some "bogus", none⟩⟩]).1._initialized = true :=
  ⟨claim_C8.1,
   claim_C8.2.1 appInit upOk ⟨RpcId.num 2, "tools/list", none⟩ (by decide),
   claim_C8.2.2.1 appInit upOk ⟨RpcId.num 2, "tools/list", none⟩ rfl,
   claim_C8.2.2.2 appInit upOk
     [⟨RpcId.num 2, "tools/list", none⟩,
      ⟨RpcId.num 3, "tools/call", some ⟨some "bogus", none⟩⟩] rfl⟩

/-- C9: an argument that is present but equal to the empty string is
treated exactly like an absent one: for `search_facilities` with
`query = ""` and for `get_facility_details` with `os_id = ""` the call
gets the `Missing ...` ErrorResponse and no upstream call is made. -/
theorem claim_C9 :
    (∀ (self : OSHubServer) (up : Upstream) (i : RpcId) (ps : Option Params),
      getParamName ps = Except.ok "search_facilities" →
      (getParamArguments ps).lookup "query" = some "" →
      (dispatchStep self up ⟨i, "tools/call", ps⟩).2.1 =
        [OutMessage.error i (-32603) "Missing \x27query\x27 in arguments."] ∧
      (dispatchStep self up ⟨i, "tools/call", ps⟩).2.2 = []) ∧
    (∀ (self : OSHubServer) (up : Upstream) (i : RpcId) (ps : Option Params),
      getParamName ps = Except.ok "get_facility_details" →
      (getParamArguments ps).lookup "os_id" = some "" →
      (dispatchStep self up ⟨i, "tools/call", ps⟩).2.1 =
        [OutMessage.error i (-32603) "Missing \x27os_id\x27 in arguments."] ∧
      (dispatchStep self up ⟨i, "tools/call", ps⟩).2.2 = []) := by
  constructor
  · intro self up i ps hname hq
    have hq' : dictGet (getParamArguments ps) "query" "" = "" := by
      unfold dictGet; rw [hq]
    rw [dispatchStep_tools_call, hname]
    dsimp only
    rw [call_tool_search, if_pos hq']
    exact ⟨rfl, rfl⟩
  · intro self up i ps hname hq
    have hq' : dictGet (getParamArguments ps) "os_id" "" = "" := by
      unfold dictGet; rw [hq]
    rw [dispatchStep_tools_call, hname]
    dsimp only
    rw [call_tool_details, if_pos hq']
    exact ⟨rfl, rfl⟩

/-- C9, witness: both tools called with their required argument present
but empty, on an initialized session. -/
theorem claim_C9_witness :
    ((dispatchStep appInit upOk ⟨RpcId.num 11, "tools/call",
      some ⟨some "search_facilities", some [("query", "")]⟩⟩).2.1 =
      [OutMessage.error (RpcId.num 11) (-32603) "Missing \x27query\x27 in arguments."] ∧
     (dispatchStep appInit upOk ⟨RpcId.num 11, "tools/call",
      some ⟨some "search_facilities", some [("query", "")]⟩⟩).2.2 = []) ∧
    ((dispatchStep appInit upOk ⟨RpcId.num 12, "tools/call",
      some ⟨some "get_facility_details", some [("os_id", "")]⟩⟩).2.1 =
      [OutMessage.error (RpcId.num 12) (-32603) "Missing \x27os_id\x27 in arguments."] ∧
     (dispatchStep appInit upOk ⟨RpcId.num 12, "tools/call",
      some ⟨some "get_facility_details", some [("os_id", "")]⟩⟩).2.2 = []) :=
  ⟨claim_C9.1 appInit upOk (RpcId.num 11)
     (some ⟨some "search_facilities", some [("query", "")]⟩) rfl rfl,
   claim_C9.2 appInit upOk (RpcId.num 12)
     (some ⟨some "get_facility_details", some [("os_id", "")]⟩) rfl rfl⟩

/-- C10: every ErrorResponse the loop writes for a `tools/call` request
carries the code `-32603`, whatever kind of failure produced it. -/
theorem claim_C10 (self : OSHubServer) (up : Upstream) (root : JSONRPCRequest)
    (h : root.method = "tools/call") (i : RpcId) (c : Int) (msg : String)
    (hmem : OutMessage.error i c msg ∈ (dispatchStep self up root).2.1) :
    c = -32603 := by
  obtain ⟨j, m, ps⟩ := root
  simp only at h; subst h
  rw [dispatchStep_tools_call] at hmem
  rcases hg : getParamName ps with e | nm
  · rw [hg] at hmem
    dsimp only at hmem
    rw [List.mem_singleton] at hmem
    injection hmem with h1 h2 h3
  · rw [hg] at hmem
    dsimp only at hmem
    rcases hc : call_tool self up nm (getParamArguments ps) with ⟨e | cont, calls⟩
    · rw [hc] at hmem
      dsimp only at hmem
      rw [List.mem_singleton] at hmem
      injection hmem with h1 h2 h3
    · rw [hc] at hmem
      dsimp only at hmem
      rw [List.mem_singleton] at hmem
      exact (OutMessage.noConfusion hmem)

/-- C10, witness: the concrete unknown-tool failure carries `-32603`. -/
theorem claim_C10_witness :
    OutMessage.error (RpcId.num 10) (-32603) ("Unknown tool: " ++ "nope") ∈
      (dispatchStep appInit upOk ⟨RpcId.num 10, "tools/call",
        some ⟨some "nope", none⟩⟩).2.1 ∧
    (-32603 : Int) = -32603 :=
  ⟨List.mem_singleton.mpr rfl,
   claim_C10 appInit upOk ⟨RpcId.num 10, "tools/call", some ⟨some "nope", none⟩⟩
     rfl (RpcId.num 10) (-32603) ("Unknown tool: " ++ "nope")
     (List.mem_singleton.mpr rfl)⟩

end OSHubMCP
